import Mathlib

/-!
Verification of the web-scraper frontend (frontend/src/app.js, with
static/main.js agreeing on every modelled behaviour) against its
natural-language specification.

The frontend is a browser application; we embed it shallowly:
* DOM inputs (keyword field, email field, checked site boxes) become
  function arguments;
* `localStorage` becomes an `Option Json` component of the app state,
  where `Json` is the abstract syntax of the JSON document stored under
  the key monitorTasks (`JSON.stringify`/`JSON.parse` are modelled as
  the bijection between that document and its text, so storing the
  document stands for storing its serialization);
* network effects (`fetch`) become explicit outcome arguments: the
  embedding of a handler is a pure function of the outcome the browser
  would deliver to it.
-/

/-- Abstract syntax of a JSON document, modelling what
`JSON.stringify` writes to and `JSON.parse` reads from localStorage. -/
inductive Json where
  | null : Json
  | str (s : String) : Json
  | num (n : Int) : Json
  | bool (b : Bool) : Json
  | arr (elems : List Json) : Json
  | obj (fields : List (String × Json)) : Json

/-- A stored monitor task, the object literal built in
`startMonitoring` (frontend/src/app.js lines 183-189): keyword, sites,
email (null when the trimmed input was empty), timestamp, task_id. -/
structure MonitorTask where
  keyword : String
  sites : List String
  email : Option String
  timestamp : Int
  task_id : Option String
deriving DecidableEq, Repr

/-- JavaScript `a || b` on an optional string: `null`/`undefined` and
the empty string are falsy. -/
def jsOrStr (o : Option String) (d : String) : String :=
  match o with
  | some s => if s = "" then d else s
  | none => d

/-- JavaScript `a || b` on an optional number: `null`/`undefined` and
`0` are falsy. -/
def jsOrInt (o : Option Int) (d : Int) : Int :=
  match o with
  | some n => if n = 0 then d else n
  | none => d

/-- `JSON.stringify` of one task object. A `task_id` that is
`undefined` is omitted from the serialized object, the other fields are
always present (`email` is `null` or a string). -/
def taskToJson (t : MonitorTask) : Json :=
  Json.obj ([("keyword", Json.str t.keyword),
             ("sites", Json.arr (t.sites.map Json.str)),
             ("email", match t.email with
               | none => Json.null
               | some s => Json.str s),
             ("timestamp", Json.num t.timestamp)] ++
            (match t.task_id with
             | none => []
             | some s => [("task_id", Json.str s)]))

/-- `JSON.stringify` of the whole `monitorTasks` array. -/
def encodeTasks (l : List MonitorTask) : Json :=
  Json.arr (l.map taskToJson)

/-- Property lookup on a parsed JSON object (first binding wins). -/
def jget (fields : List (String × Json)) (k : String) : Option Json :=
  match fields with
  | [] => none
  | (k', v) :: rest => if k' = k then some v else jget rest k

/-- Read a JSON array of strings back as a list of strings. -/
def decodeStrList : List Json → Option (List String)
  | [] => some []
  | Json.str s :: rest => (decodeStrList rest).map (s :: ·)
  | _ => none

/-- Read the `email` property back: `null` was an absent email. -/
def decodeEmail : Json → Option (Option String)
  | Json.null => some none
  | Json.str s => some (some s)
  | _ => none

/-- Read one parsed JSON object back as a `MonitorTask` (the typed view of
how the rendered list consumes a parsed task object). -/
def jsonToTask (j : Json) : Option MonitorTask :=
  match j with
  | Json.obj fields =>
    match jget fields "keyword", jget fields "sites", jget fields "email",
          jget fields "timestamp" with
    | some (Json.str k), some (Json.arr ss), some e, some (Json.num ts) =>
      match decodeStrList ss, decodeEmail e, jget fields "task_id" with
      | some sites, some em, none => some ⟨k, sites, em, ts, none⟩
      | some sites, some em, some (Json.str tid) => some ⟨k, sites, em, ts, some tid⟩
      | _, _, _ => none
    | _, _, _, _ => none
  | _ => none

/-- Read the parsed `monitorTasks` array back as a task list. -/
def decodeTaskList : List Json → Option (List MonitorTask)
  | [] => some []
  | j :: rest =>
    match jsonToTask j, decodeTaskList rest with
    | some t, some ts => some (t :: ts)
    | _, _ => none

/-- The application state the claims are about: the in-memory
`this.monitorTasks` array and the localStorage entry under the key
monitorTasks (`none` when no value was ever stored). -/
structure AppState where
  monitorTasks : List MonitorTask
  storage : Option Json

/-- The constructor's task-list initialization
(`JSON.parse(localStorage.getItem(...) || '[]')`,
frontend/src/app.js line 8): no stored value parses as the empty
array; a stored document is read back as the task list it serializes. -/
def loadTasks : Option Json → List MonitorTask
  | none => []
  | some (Json.arr xs) => (decodeTaskList xs).getD []
  | some _ => []

/-- `new MonitorApp()` as far as the task list is concerned. -/
def MonitorApp.new (storage : Option Json) : AppState :=
  { monitorTasks := loadTasks storage, storage := storage }

/-- ECMAScript `Array.prototype.splice` start-index clamping:
a negative index counts from the end (floored at 0), a nonnegative
index is capped at the length. -/
def spliceStart (len : Nat) (index : Int) : Nat :=
  if index < 0 then ((len : Int) + index).toNat
  else min index.toNat len

/-- `l.splice(index, 1)`: remove (at most) one element at the clamped
start position. -/
def spliceRemoveOne (l : List MonitorTask) (index : Int) : List MonitorTask :=
  let s := spliceStart l.length index
  l.take s ++ l.drop (s + 1)

/-- `removeMonitor(index)` (frontend/src/app.js lines 129-133):
splice one element out of `monitorTasks`, then persist the new array
to localStorage. It returns nothing to its caller. -/
def MonitorApp.removeMonitor (st : AppState) (index : Int) : AppState :=
  let l := spliceRemoveOne st.monitorTasks index
  { monitorTasks := l, storage := some (encodeTasks l) }

/-- JavaScript `String.prototype.trim`: strip whitespace from both
ends (written on character lists so that it evaluates inside the
kernel). -/
def jsTrim (s : String) : String :=
  ⟨((s.data.dropWhile Char.isWhitespace).reverse.dropWhile Char.isWhitespace).reverse⟩

/-- Does `sub` occur as a contiguous run inside the list? -/
def hasSubList (sub : List Char) : List Char → Bool
  | [] => sub.isEmpty
  | c :: rest => sub.isPrefixOf (c :: rest) || hasSubList sub rest

/-- JavaScript `haystack.includes(needle)`. -/
def jsIncludes (s sub : String) : Bool :=
  hasSubList sub.data s.data

/-- How `fetch` can come back to `apiRequest`: the promise resolves
with a response (carrying `ok`, `status`, `statusText` and a JSON
body), or rejects with a network error. The abort race is modelled by
`resolveAt`, the instant (ms) at which this settlement would occur. -/
inductive FetchOutcome where
  | resolved (ok : Bool) (code : Nat) (statusText : String) (body : Json) : FetchOutcome
  | failed (msg : String) : FetchOutcome

/-- The per-call timeout `apiRequest` arms
(frontend/src/app.js line 74): `timeout || window.API_TIMEOUT || 30000`. -/
def effectiveTimeout (timeoutArg apiTimeout : Option Int) : Int :=
  jsOrInt timeoutArg (jsOrInt apiTimeout 30000)

/-- `apiRequest` (frontend/src/app.js lines 72-103). A timer aborts
the request after the effective timeout; if the abort fires no later
than the fetch would settle, the call throws the timeout error
(`AbortError` mapped to the message 请求超时). Otherwise a rejected
fetch rethrows its error, a non-ok response throws an HTTP error, and
an ok response returns its JSON body. The failure is the `Except.error`
of this one call: no application state is touched. -/
def MonitorApp.apiRequest (timeoutArg apiTimeout : Option Int)
    (resolveAt : Int) (oc : FetchOutcome) : Except String Json :=
  let tmo := effectiveTimeout timeoutArg apiTimeout
  if tmo ≤ resolveAt then
    Except.error "请求超时"
  else
    match oc with
    | FetchOutcome.resolved ok code statusText body =>
      if ok then Except.ok body
      else Except.error ("HTTP " ++ toString code ++ ": " ++ statusText)
    | FetchOutcome.failed msg => Except.error msg

/-- The availability part of one result item as `displayResults` reads
it: a `status` string and the `is_available` flag. -/
structure Availability where
  status : String
  is_available : Bool
deriving DecidableEq, Repr

/-- One entry of the `results` array of an add-monitor response. -/
structure ResultItem where
  title : Option String
  url : String
  availability : Option Availability
deriving DecidableEq, Repr

/-- The per-item branch of `displayResults`
(frontend/src/app.js lines 250-264): CSS status class and status text.
Only a present availability with status success is rendered as
available (有库存) or unavailable (缺货); every other shape keeps the
initial class unknown and shows 检查失败. -/
def resultStatus (r : ResultItem) : String × String :=
  match r.availability with
  | some a =>
    if a.status = "success" then
      if a.is_available then ("available", "有库存") else ("unavailable", "缺货")
    else ("unknown", "检查失败")
  | none => ("unknown", "检查失败")

/-- `displayResults` (frontend/src/app.js lines 241-274) as the list
of rendered items: title (falling back to 商品页面), url, status class,
status text, in result order. -/
def MonitorApp.displayResults (results : List ResultItem) :
    List (String × String × String × String) :=
  results.map fun r => (jsOrStr r.title "商品页面", r.url,
                        (resultStatus r).1, (resultStatus r).2)

/-- The parsed body of a successful `/api/add-monitor` HTTP exchange
as `startMonitoring` consumes it. -/
structure AddResp where
  status : String
  summary : Option String
  message : Option String
  timestamp : Option Int
  task_id : Option String
  results : List ResultItem
deriving DecidableEq, Repr

/-- The JSON body `startMonitoring` posts to `/api/add-monitor`. -/
structure RequestBody where
  keyword : String
  target_sites : List String
  notification_email : Option String
deriving DecidableEq, Repr

/-- The observable outcome of one `startMonitoring` invocation:
whether (and with which body) the add-monitor request was issued,
the task appended on success, the final `showStatus` call
(message, css type), the submit button state on return, and the
resulting application state. -/
structure SMResult where
  requestIssued : Bool
  requestBody : Option RequestBody
  createdTask : Option MonitorTask
  finalStatus : Option (String × String)
  buttonDisabled : Bool
  buttonLabel : String
  state : AppState

/-- The message rewriting of `startMonitoring`'s catch block
(frontend/src/app.js lines 207-218). -/
def catchMessage (m : String) : String :=
  if jsIncludes m "Failed to fetch" then "无法连接到后端服务，请检查网络连接"
  else if jsIncludes m "请求超时" then "请求超时，请稍后重试或检查网络连接"
  else "错误: " ++ m

/-- `startMonitoring` (frontend/src/app.js lines 135-224).
Arguments: the raw keyword and email field values, the checked site
values, the current `apiStatus`, whether a `checkApiStatus` retry
would find the API healthy, the settlement of the add-monitor
`apiRequest` call (`Except.error` for a throw or timeout), the value
of `Date.now() / 1000`, and the current state. The static/main.js
variant differs only in lacking the offline gate and the
summary/timestamp fallbacks; every property proved below about
validation, the request body, unshift and the catch/finally block
holds of it identically. -/
def MonitorApp.startMonitoring (keywordRaw emailRaw : String)
    (selectedSites : List String) (apiStatus : String) (healthOnline : Bool)
    (addOutcome : Except String AddResp) (now : Int) (st : AppState) : SMResult :=
  let keyword := jsTrim keywordRaw
  let email := jsTrim emailRaw
  if keyword = "" then
    ⟨false, none, none, some ("请输入商品关键词", "error"), false, "开始监控", st⟩
  else if selectedSites = [] then
    ⟨false, none, none, some ("请选择至少一个监控网站", "error"), false, "开始监控", st⟩
  else if apiStatus = "offline" && !healthOnline then
    ⟨false, none, none, some ("后端API不可用，请检查网络连接或稍后重试", "error"),
     false, "开始监控", st⟩
  else
    let body : RequestBody :=
      ⟨keyword, selectedSites, if email = "" then none else some email⟩
    match addOutcome with
    | Except.ok resp =>
      if resp.status = "success" then
        let task : MonitorTask :=
          ⟨keyword, selectedSites, (if email = "" then none else some email),
           jsOrInt resp.timestamp now, resp.task_id⟩
        let tasks := task :: st.monitorTasks
        ⟨true, some body, some task,
         some (jsOrStr resp.summary "监控任务已添加", "success"),
         false, "开始监控", ⟨tasks, some (encodeTasks tasks)⟩⟩
      else
        ⟨true, some body, none,
         some (jsOrStr resp.message "监控添加失败", "error"),
         false, "开始监控", st⟩
    | Except.error m =>
      ⟨true, some body, none, some (catchMessage m, "error"),
       false, "开始监控", st⟩

/-- One create-monitor submission bundled as data, to talk about
sequences of submissions. -/
structure CreateInput where
  keywordRaw : String
  emailRaw : String
  sites : List String
  apiStatus : String
  healthOnline : Bool
  outcome : Except String AddResp
  now : Int

/-- Run one bundled submission. -/
def runCreate (inp : CreateInput) (st : AppState) : SMResult :=
  MonitorApp.startMonitoring inp.keywordRaw inp.emailRaw inp.sites
    inp.apiStatus inp.healthOnline inp.outcome inp.now st

/-- Run a sequence of submissions left to right (earliest first). -/
def createAll : List CreateInput → AppState → AppState
  | [], st => st
  | inp :: rest, st => createAll rest (runCreate inp st).state

/-- The task a submission would append; it depends only on the
submission, not on the state it runs in. -/
def taskOfInput (inp : CreateInput) : Option MonitorTask :=
  (runCreate inp ⟨[], none⟩).createdTask

/-- `updateMonitorList` (frontend/src/app.js lines 105-127) renders
`monitorTasks` front to back: the list presented to the user is, per
position, the task's keyword and its sites (falling back to the
default pair when the sites array is absent; in this typed model it
always is present). -/
def MonitorApp.updateMonitorList (st : AppState) : List (String × List String) :=
  st.monitorTasks.map fun t => (t.keyword, t.sites)

/-- The tri-state availability verdict of the specification. -/
inductive Avail where
  | available : Avail
  | unavailable : Avail
  | unknown : Avail
deriving DecidableEq, Repr

/-- Modelled from the spec: the backend `AvailabilityVerdict` record
(spec §3); the backend sources are not in the repository (only the
frontend is), so the record is taken from the spec's words: url is the
store key, `is_available` is tri-state, with a check time and the raw
signal. -/
structure Verdict where
  is_available : Avail
  checked_at : Int
  raw_signal : String
deriving DecidableEq, Repr

/-- Modelled from the spec: the backend Monitor Store's verdict table,
keyed by (task_id, url) (spec §3, §4.4); newest binding first. -/
abbrev VerdictStore := List ((String × String) × Verdict)

/-- Modelled from the spec: `get_last_verdict(task_id, url)` →
optional prior verdict (spec §4.4). -/
def get_last_verdict (store : VerdictStore) (taskId url : String) : Option Verdict :=
  match store with
  | [] => none
  | (k, v) :: rest => if k = (taskId, url) then some v else get_last_verdict rest taskId url

/-- Modelled from the spec: `put_verdict(task_id, url, verdict)` →
overwrite (spec §4.4); the new binding shadows any prior one. -/
def put_verdict (store : VerdictStore) (taskId url : String) (v : Verdict) : VerdictStore :=
  ((taskId, url), v) :: store

/-- Modelled from the spec: the diff-and-notify step of the backend
pipeline (spec §2, §3, §4.5), absent from the repository sources:
compare the newly computed verdict against the stored one for the
(task, url) pair, notify exactly on a changed `is_available`, never on
a first check, then persist the new verdict. Returns whether a
notification is sent, and the updated store. -/
def runCheck (store : VerdictStore) (taskId url : String) (newV : Verdict) :
    Bool × VerdictStore :=
  let prior := get_last_verdict store taskId url
  let notify :=
    match prior with
    | none => false
    | some p => decide (p.is_available ≠ newV.is_available)
  (notify, put_verdict store taskId url newV)

/-- A concrete task for witnesses. -/
def taskA : MonitorTask := ⟨"iPhone 15 Pro Max", ["amazon.co.jp"], none, 1, none⟩

/-- A second concrete task for witnesses. -/
def taskB : MonitorTask := ⟨"bag", ["louisvuitton.com"], some "u@example.com", 2, some "id2"⟩

/-- A concrete successful create submission (keyword a). -/
def cinA : CreateInput :=
  ⟨"a", "", ["amazon.co.jp"], "online", true,
   Except.ok ⟨"success", none, none, some 5, some "id1", []⟩, 100⟩

/-- A concrete successful create submission (keyword b). -/
def cinB : CreateInput :=
  ⟨"b", "", ["amazon.co.jp"], "online", true,
   Except.ok ⟨"success", none, none, some 6, some "id2", []⟩, 100⟩

/-- The task `cinA` creates. -/
def taskOfA : MonitorTask := ⟨"a", ["amazon.co.jp"], none, 5, some "id1"⟩

/-- The task `cinB` creates. -/
def taskOfB : MonitorTask := ⟨"b", ["amazon.co.jp"], none, 6, some "id2"⟩


/-! ## Helper lemmas -/

theorem decodeStrList_map_str (ss : List String) :
    decodeStrList (ss.map Json.str) = some ss := by
  induction ss with
  | nil => rfl
  | cons s rest ih => simp [decodeStrList, ih]

theorem jsonToTask_taskToJson (t : MonitorTask) :
    jsonToTask (taskToJson t) = some t := by
  obtain ⟨k, sites, em, ts, tid⟩ := t
  cases em <;> cases tid <;>
    simp [taskToJson, jsonToTask, jget, decodeStrList_map_str, decodeEmail]

theorem decodeTaskList_map (l : List MonitorTask) :
    decodeTaskList (l.map taskToJson) = some l := by
  induction l with
  | nil => rfl
  | cons t rest ih => simp [decodeTaskList, jsonToTask_taskToJson, ih]

/-! ## Claims -/

/-- C10: the task list round-trips through persistence: constructing a
`MonitorApp` over a localStorage slot holding the serialization of any
task list yields that task list, and constructing one over an empty
slot yields the empty task list. -/
theorem persistence_roundtrip (l : List MonitorTask) :
    (MonitorApp.new (some (encodeTasks l))).monitorTasks = l ∧
    (MonitorApp.new none).monitorTasks = [] := by
  constructor
  · simp [MonitorApp.new, loadTasks, encodeTasks, decodeTaskList_map]
  · rfl

/-- C1: in the diff-and-notify step (modelled from the spec, the
backend sources being absent from the repository), a notification is
sent iff a prior verdict is stored for the (task, url) pair and its
`is_available` differs from the newly computed one; in particular a
first-ever check (no stored verdict) never notifies. -/
theorem notify_iff_verdict_changed (store : VerdictStore) (taskId url : String)
    (newV : Verdict) :
    ((runCheck store taskId url newV).1 = true ↔
      ∃ p, get_last_verdict store taskId url = some p ∧
        p.is_available ≠ newV.is_available) ∧
    (get_last_verdict store taskId url = none →
      (runCheck store taskId url newV).1 = false) := by
  constructor
  · cases h : get_last_verdict store taskId url with
    | none => simp [runCheck, h]
    | some p => simp [runCheck, h]
  · intro h
    simp [runCheck, h]

/-- C1 witness: on an empty store (a first-ever check) no notification
is sent. -/
theorem notify_iff_verdict_changed_witness :
    get_last_verdict [] "t1" "https://x" = none ∧
    (runCheck [] "t1" "https://x" ⟨Avail.available, 0, "in stock"⟩).1 = false :=
  ⟨rfl, (notify_iff_verdict_changed [] "t1" "https://x"
    ⟨Avail.available, 0, "in stock"⟩).2 rfl⟩

/-- C3: a result renders as the unknown state exactly when its
availability check did not succeed (availability absent or status not
success); it renders available exactly when the check succeeded with
`is_available` true, and unavailable exactly when it succeeded with
`is_available` false. -/
theorem failed_check_renders_unknown (r : ResultItem) :
    ((resultStatus r).1 = "unknown" ↔
      ¬ ∃ a, r.availability = some a ∧ a.status = "success") ∧
    ((resultStatus r).1 = "available" ↔
      ∃ a, r.availability = some a ∧ a.status = "success" ∧ a.is_available = true) ∧
    ((resultStatus r).1 = "unavailable" ↔
      ∃ a, r.availability = some a ∧ a.status = "success" ∧ a.is_available = false) := by
  obtain ⟨title, url, availability⟩ := r
  cases availability with
  | none => simp [resultStatus]
  | some a =>
    by_cases hs : a.status = "success"
    · cases hb : a.is_available <;> simp [resultStatus, hs, hb]
    · simp [resultStatus, hs]


/-- C6: for a valid index, `removeMonitor` removes exactly the task at
that position — the new list is the old one with element `i` deleted
(equivalently: the prefix before `i` followed by the suffix after it,
all other tasks unchanged in relative order) — and localStorage holds
the serialization of the new list. -/
theorem removeMonitor_erases_exactly_index (st : AppState) (i : Int)
    (h0 : 0 ≤ i) (h1 : i < (st.monitorTasks.length : Int)) :
    (MonitorApp.removeMonitor st i).monitorTasks =
      st.monitorTasks.take i.toNat ++ st.monitorTasks.drop (i.toNat + 1) ∧
    (MonitorApp.removeMonitor st i).monitorTasks = st.monitorTasks.eraseIdx i.toNat ∧
    (MonitorApp.removeMonitor st i).storage =
      some (encodeTasks (st.monitorTasks.eraseIdx i.toNat)) := by
  have hs : spliceStart st.monitorTasks.length i = i.toNat := by
    unfold spliceStart
    rw [if_neg (by omega)]
    omega
  refine ⟨?_, ?_, ?_⟩ <;>
    simp [MonitorApp.removeMonitor, spliceRemoveOne, hs,
      List.eraseIdx_eq_take_drop_succ]

/-- C6 witness: deleting index 1 out of two tasks keeps exactly the
first task and persists the one-task list. -/
theorem removeMonitor_erases_exactly_index_witness :
    ((0 : Int) ≤ 1 ∧ (1 : Int) < (([taskA, taskB] : List MonitorTask).length : Int)) ∧
    ((MonitorApp.removeMonitor ⟨[taskA, taskB], none⟩ 1).monitorTasks = [taskA] ∧
     (MonitorApp.removeMonitor ⟨[taskA, taskB], none⟩ 1).storage =
       some (encodeTasks [taskA])) := by
  have h := removeMonitor_erases_exactly_index ⟨[taskA, taskB], none⟩ 1
    (by decide) (by decide)
  exact ⟨⟨by decide, by decide⟩, by simpa [List.eraseIdx] using h.2⟩

/-- C5 counterexample: the claim quantifies over every index outside
the bounds of the task list, but `Array.prototype.splice` counts a
negative index from the end: on a one-task list, index -1 (out of
bounds) deletes the last task, so the state does change (and the
client-side `removeMonitor` produces no not-found response at all). -/
theorem removeMonitor_negative_index_changes_state :
    ((-1 : Int) < 0) ∧
    (MonitorApp.removeMonitor ⟨[taskA], some (encodeTasks [taskA])⟩ (-1)).monitorTasks ≠
      [taskA] := by
  exact ⟨by decide, by decide⟩

/-- C5 amended: deleting with an index at or past the end of the task
list removes nothing — the task list is unchanged and localStorage is
rewritten with the serialization of that same list (so a state whose
stored copy already matched is fully unchanged). No not-found response
is produced (the function returns nothing), and a negative index is
clamped per splice semantics, counting from the end. -/
theorem removeMonitor_past_end_noop (st : AppState) (i : Int)
    (h : (st.monitorTasks.length : Int) ≤ i) :
    (MonitorApp.removeMonitor st i).monitorTasks = st.monitorTasks ∧
    (MonitorApp.removeMonitor st i).storage = some (encodeTasks st.monitorTasks) := by
  have hs : spliceStart st.monitorTasks.length i = st.monitorTasks.length := by
    unfold spliceStart
    rw [if_neg (by omega)]
    omega
  have hdrop : st.monitorTasks.drop (st.monitorTasks.length + 1) = [] :=
    List.drop_eq_nil_of_le (by omega)
  constructor <;> simp [MonitorApp.removeMonitor, spliceRemoveOne, hs, hdrop]

/-- C5 amended witness: index 5 on a one-task list leaves the task
list as it was and persists that same list. -/
theorem removeMonitor_past_end_noop_witness :
    ((([taskA] : List MonitorTask).length : Int) ≤ 5) ∧
    ((MonitorApp.removeMonitor ⟨[taskA], some (encodeTasks [taskA])⟩ 5).monitorTasks =
       [taskA] ∧
     (MonitorApp.removeMonitor ⟨[taskA], some (encodeTasks [taskA])⟩ 5).storage =
       some (encodeTasks [taskA])) :=
  ⟨by decide, removeMonitor_past_end_noop ⟨[taskA], some (encodeTasks [taskA])⟩ 5 (by decide)⟩

theorem runCreate_createdTask (inp : CreateInput) (st : AppState) :
    (runCreate inp st).createdTask = taskOfInput inp := by
  simp only [runCreate, MonitorApp.startMonitoring, taskOfInput]
  repeat' split
  all_goals rfl

theorem runCreate_monitorTasks (inp : CreateInput) (st : AppState) :
    (runCreate inp st).state.monitorTasks =
      (match taskOfInput inp with
       | some t => t :: st.monitorTasks
       | none => st.monitorTasks) := by
  rw [← runCreate_createdTask inp st]
  simp only [runCreate, MonitorApp.startMonitoring]
  repeat' split
  all_goals simp_all

/-- C2 counterexample: two successful create submissions (keyword a,
then keyword b) leave the presented monitor list [b-task, a-task] —
newest first — not the creation order [a-task, b-task] the claim
states. -/
theorem monitor_list_not_creation_order :
    [cinA, cinB].filterMap taskOfInput = [taskOfA, taskOfB] ∧
    (createAll [cinA, cinB] ⟨[], none⟩).monitorTasks = [taskOfB, taskOfA] ∧
    (createAll [cinA, cinB] ⟨[], none⟩).monitorTasks ≠ [taskOfA, taskOfB] :=
  ⟨by decide, by decide, by decide⟩

/-- C2 amended: the monitor list presents the tasks newest first: a
sequence of create submissions leaves the created tasks in reverse
creation order (each successful create unshifts its task to the front),
prepended to the pre-existing tasks, and `updateMonitorList` renders
exactly that order. -/
theorem monitor_list_newest_first (inputs : List CreateInput) (st : AppState) :
    (createAll inputs st).monitorTasks =
      (inputs.filterMap taskOfInput).reverse ++ st.monitorTasks ∧
    MonitorApp.updateMonitorList (createAll inputs st) =
      ((inputs.filterMap taskOfInput).reverse ++ st.monitorTasks).map
        (fun t => (t.keyword, t.sites)) := by
  have key : (createAll inputs st).monitorTasks =
      (inputs.filterMap taskOfInput).reverse ++ st.monitorTasks := by
    induction inputs generalizing st with
    | nil => simp [createAll]
    | cons inp rest ih =>
      have h := runCreate_monitorTasks inp st
      simp only [createAll, List.filterMap_cons]
      rw [ih]
      cases hti : taskOfInput inp with
      | none =>
        simp only [hti] at h
        simp [h]
      | some t =>
        simp only [hti] at h
        simp [h, List.append_assoc]
  exact ⟨key, by simp [MonitorApp.updateMonitorList, key]⟩

/-- C4: if the trimmed keyword is empty or no site is selected, no
create request is issued, an error status is shown, and the state
(task list and stored copy) is unchanged; conversely a request is
issued only with a non-empty trimmed keyword and at least one site. -/
theorem create_validation_guards (kw em : String) (sites : List String)
    (apiSt : String) (healthOnline : Bool) (oc : Except String AddResp)
    (now : Int) (st : AppState) :
    ((jsTrim kw = "" ∨ sites = []) →
      (MonitorApp.startMonitoring kw em sites apiSt healthOnline oc now st).requestIssued
          = false ∧
      (∃ m, (MonitorApp.startMonitoring kw em sites apiSt healthOnline oc now
          st).finalStatus = some (m, "error")) ∧
      (MonitorApp.startMonitoring kw em sites apiSt healthOnline oc now st).state = st) ∧
    ((MonitorApp.startMonitoring kw em sites apiSt healthOnline oc now st).requestIssued
        = true → jsTrim kw ≠ "" ∧ sites ≠ []) := by
  by_cases hk : jsTrim kw = ""
  · refine ⟨fun _ => ?_, fun hr => ?_⟩
    · simp [MonitorApp.startMonitoring, hk]
    · simp [MonitorApp.startMonitoring, hk] at hr
  · by_cases hsites : sites = []
    · refine ⟨fun _ => ?_, fun hr => ?_⟩
      · simp [MonitorApp.startMonitoring, hk, hsites]
      · simp [MonitorApp.startMonitoring, hk, hsites] at hr
    · refine ⟨fun h => ?_, fun _ => ⟨hk, hsites⟩⟩
      rcases h with h | h
      · exact absurd h hk
      · exact absurd h hsites

/-- C4 witness: an empty keyword issues no request, shows an error and
leaves the empty state unchanged. -/
theorem create_validation_guards_witness :
    (jsTrim "" = "" ∨ ([] : List String) = []) ∧
    ((MonitorApp.startMonitoring "" "" [] "online" true (Except.error "boom") 0
        ⟨[], none⟩).requestIssued = false ∧
     (∃ m, (MonitorApp.startMonitoring "" "" [] "online" true (Except.error "boom") 0
        ⟨[], none⟩).finalStatus = some (m, "error")) ∧
     (MonitorApp.startMonitoring "" "" [] "online" true (Except.error "boom") 0
        ⟨[], none⟩).state = ⟨[], none⟩) :=
  ⟨Or.inl rfl,
   (create_validation_guards "" "" [] "online" true (Except.error "boom") 0
      ⟨[], none⟩).1 (Or.inl rfl)⟩

/-- C8: when the add-monitor request was issued and it threw, timed
out, or came back with a status other than success, the whole state
(task list and stored copy) is unchanged, the final status message is
an error (never a success), and the submit button ends re-enabled with
its original label. -/
theorem create_failure_atomic (kw em : String) (sites : List String)
    (apiSt : String) (healthOnline : Bool) (oc : Except String AddResp)
    (now : Int) (st : AppState)
    (hreq : (MonitorApp.startMonitoring kw em sites apiSt healthOnline oc now
        st).requestIssued = true)
    (hbad : (∃ m, oc = Except.error m) ∨
            ∃ resp, oc = Except.ok resp ∧ resp.status ≠ "success") :
    (MonitorApp.startMonitoring kw em sites apiSt healthOnline oc now st).state = st ∧
    (∃ m, (MonitorApp.startMonitoring kw em sites apiSt healthOnline oc now
        st).finalStatus = some (m, "error")) ∧
    (MonitorApp.startMonitoring kw em sites apiSt healthOnline oc now
        st).buttonDisabled = false ∧
    (MonitorApp.startMonitoring kw em sites apiSt healthOnline oc now
        st).buttonLabel = "开始监控" := by
  by_cases hk : jsTrim kw = ""
  · simp [MonitorApp.startMonitoring, hk] at hreq
  · by_cases hsites : sites = []
    · simp [MonitorApp.startMonitoring, hk, hsites] at hreq
    · by_cases hoff : (decide (apiSt = "offline") && !healthOnline) = true
      · simp [MonitorApp.startMonitoring, hk, hsites, hoff] at hreq
      · rcases hbad with ⟨m, rfl⟩ | ⟨resp, rfl, hst⟩
        · simp [MonitorApp.startMonitoring, hk, hsites, hoff]
        · simp [MonitorApp.startMonitoring, hk, hsites, hoff, hst]

/-- C8 witness: a thrown request (network failure) leaves the state
unchanged, shows an error and re-enables the button. -/
theorem create_failure_atomic_witness :
    ((MonitorApp.startMonitoring "a" "" ["amazon.co.jp"] "online" true
        (Except.error "Failed to fetch") 0 ⟨[], none⟩).requestIssued = true) ∧
    ((MonitorApp.startMonitoring "a" "" ["amazon.co.jp"] "online" true
        (Except.error "Failed to fetch") 0 ⟨[], none⟩).state = ⟨[], none⟩ ∧
     (∃ m, (MonitorApp.startMonitoring "a" "" ["amazon.co.jp"] "online" true
        (Except.error "Failed to fetch") 0 ⟨[], none⟩).finalStatus = some (m, "error")) ∧
     (MonitorApp.startMonitoring "a" "" ["amazon.co.jp"] "online" true
        (Except.error "Failed to fetch") 0 ⟨[], none⟩).buttonDisabled = false ∧
     (MonitorApp.startMonitoring "a" "" ["amazon.co.jp"] "online" true
        (Except.error "Failed to fetch") 0 ⟨[], none⟩).buttonLabel = "开始监控") :=
  ⟨by decide,
   create_failure_atomic "a" "" ["amazon.co.jp"] "online" true
     (Except.error "Failed to fetch") 0 ⟨[], none⟩ (by decide)
     (Or.inl ⟨"Failed to fetch", rfl⟩)⟩

/-- C9: whenever the create request is issued, its body carries the
trimmed keyword, the selected sites, and a notification_email that is
null exactly when the trimmed email input is empty and the trimmed
email verbatim otherwise — for every email string whatsoever, so no
syntactic validation of the address is performed. -/
theorem notification_email_sent_verbatim (kw em : String) (sites : List String)
    (apiSt : String) (healthOnline : Bool) (oc : Except String AddResp)
    (now : Int) (st : AppState)
    (hreq : (MonitorApp.startMonitoring kw em sites apiSt healthOnline oc now
        st).requestIssued = true) :
    (MonitorApp.startMonitoring kw em sites apiSt healthOnline oc now st).requestBody =
      some ⟨jsTrim kw, sites,
            if jsTrim em = "" then none else some (jsTrim em)⟩ := by
  by_cases hk : jsTrim kw = ""
  · simp [MonitorApp.startMonitoring, hk] at hreq
  · by_cases hsites : sites = []
    · simp [MonitorApp.startMonitoring, hk, hsites] at hreq
    · by_cases hoff : (decide (apiSt = "offline") && !healthOnline) = true
      · simp [MonitorApp.startMonitoring, hk, hsites, hoff] at hreq
      · cases oc with
        | ok resp =>
          by_cases hst : resp.status = "success" <;>
            simp [MonitorApp.startMonitoring, hk, hsites, hoff, hst]
        | error m => simp [MonitorApp.startMonitoring, hk, hsites, hoff]

/-- C9 witness: a syntactically invalid non-empty address is sent
verbatim, untouched by any validation. -/
theorem notification_email_sent_verbatim_witness :
    ((MonitorApp.startMonitoring "a" "not an address @@" ["amazon.co.jp"] "online" true
        (Except.error "boom") 0 ⟨[], none⟩).requestIssued = true) ∧
    ((MonitorApp.startMonitoring "a" "not an address @@" ["amazon.co.jp"] "online" true
        (Except.error "boom") 0 ⟨[], none⟩).requestBody =
      some ⟨"a", ["amazon.co.jp"], some "not an address @@"⟩) := by
  refine ⟨by decide, ?_⟩
  have h := notification_email_sent_verbatim "a" "not an address @@" ["amazon.co.jp"]
    "online" true (Except.error "boom") 0 ⟨[], none⟩ (by decide)
  simpa using h

/-- C7: every call through `apiRequest` is bounded by the effective
timeout — the explicit (non-zero) timeout argument, else the (non-zero)
configured API timeout, else 30000 ms; when the abort timer fires no
later than the fetch would settle, that call (and only that call — the
function touches no shared state and merely returns this call's
`Except`) fails with the timeout error, while a call whose fetch
settles ok before the timeout returns its body. -/
theorem api_request_timeout_bound (ta cfg : Option Int) (resolveAt : Int)
    (oc : FetchOutcome) :
    (∀ t : Int, t ≠ 0 → effectiveTimeout (some t) cfg = t) ∧
    (∀ c : Int, c ≠ 0 → effectiveTimeout none (some c) = c) ∧
    effectiveTimeout none none = 30000 ∧
    (effectiveTimeout ta cfg ≤ resolveAt →
      MonitorApp.apiRequest ta cfg resolveAt oc = Except.error "请求超时") ∧
    (∀ (code : Nat) (stext : String) (body : Json),
      resolveAt < effectiveTimeout ta cfg →
      MonitorApp.apiRequest ta cfg resolveAt
        (FetchOutcome.resolved true code stext body) = Except.ok body) := by
  refine ⟨fun t ht => ?_, fun c hc => ?_, rfl, fun h => ?_, fun code stext body h => ?_⟩
  · simp [effectiveTimeout, jsOrInt, ht]
  · simp [effectiveTimeout, jsOrInt, hc]
  · simp [MonitorApp.apiRequest, h]
  · simp [MonitorApp.apiRequest, not_le.mpr h]

/-- C7 witness: with no explicit and no configured timeout a fetch
still pending at 30000 ms is aborted and fails with the timeout
error. -/
theorem api_request_timeout_bound_witness :
    effectiveTimeout none none ≤ (30000 : Int) ∧
    MonitorApp.apiRequest none none 30000 (FetchOutcome.failed "pending") =
      Except.error "请求超时" :=
  ⟨by decide,
   (api_request_timeout_bound none none 30000 (FetchOutcome.failed "pending")).2.2.2.1
     (by decide)⟩

/-- C3 witness: a result whose check errored renders the unknown
state. -/
theorem failed_check_renders_unknown_witness :
    (resultStatus ⟨none, "https://x", some ⟨"error", true⟩⟩).1 = "unknown" :=
  (failed_check_renders_unknown ⟨none, "https://x", some ⟨"error", true⟩⟩).1.mpr
    (by simp)

/-- C10 witness: a concrete two-task list survives the
serialize-then-construct round trip. -/
theorem persistence_roundtrip_witness :
    (MonitorApp.new (some (encodeTasks [taskA, taskB]))).monitorTasks = [taskA, taskB] :=
  (persistence_roundtrip [taskA, taskB]).1

/-- C2 amended witness: two concrete successful creates leave the
created tasks newest first. -/
theorem monitor_list_newest_first_witness :
    (createAll [cinA, cinB] ⟨[], none⟩).monitorTasks =
      ([cinA, cinB].filterMap taskOfInput).reverse ++
        (⟨[], none⟩ : AppState).monitorTasks :=
  (monitor_list_newest_first [cinA, cinB] ⟨[], none⟩).1
